import Mathlib

/-!
# Verification of the ZEP work-item integration services

A shallow embedding, in Lean 4, of the TypeScript services of the
ZEPExtension repository:

* `src/src/services/ZepApiService.ts` — the ZEP time-service HTTP client
  (`setCredentials`, `getApiUrl`, `getTimeEntriesForTicket`,
  `transformZepResponse`, `clearCredentials`);
* `src/src/services/WorkItemService.ts` — the work-item field bridge
  (`getZepTicketIds`);
* `src/src/services/CredentialService.ts` — localStorage-backed credential
  persistence (`encrypt`, `decrypt`, `saveCredentialsToLocalStorage`,
  `getCredentialsFromLocalStorage`);
* `src/unnamed/part_002` (`ZepIntegrationService`) — the aggregation engine
  (`executeZepIntegration`'s fetch loop, `calculateTotalHours`,
  `getDateRange`, `calculateTicketSummaries`, the summary assembly of
  `getTimeEntriesForWorkItem`).

Modelling conventions:

* JavaScript numbers are modelled as rationals (`ℚ`); a possibly-`undefined`
  number is `Option ℚ` with `none` standing for `undefined` (whose arithmetic
  propagates like `NaN`, see `jsAdd`).
* Network I/O is abstracted by a responder function (`ZepRequest →
  HttpOutcome` per request, or a per-ticket fetch oracle for the aggregation
  loop); the embedding of a client function returns the list of requests it
  issues together with its result, so that request-level properties are
  statable.
* Thrown exceptions become `Except`; the exception classes
  `ZepCorsError` / `ZepApiConnectionError` and unclassified throwables become
  the constructors of `FetchError`.
* `new Date()` (the current day) is an explicit `today : String` parameter.
-/

/-- `undefined`-propagating addition of JavaScript numbers: `sum + e.duration`
evaluates to `NaN` as soon as one operand is `undefined`; `none` stands for
that absorbing non-number. -/
def jsAdd : Option ℚ → Option ℚ → Option ℚ
  | some a, some b => some (a + b)
  | _, _ => none

/-- `Math.round` on a rational argument: round to the nearest integer, ties
toward `+∞` (this is exactly JavaScript's `Math.round(x) = ⌊x + 0.5⌋`). -/
def mathRound (x : ℚ) : ℤ := ⌊x + 1 / 2⌋

/-- Rounding to two decimal places as the spec words it: "rounded half-up at
2 decimals".  Written from the spec for comparison with the code's
`Math.round(total * 100) / 100`. -/
def specRoundHalfUp2 (x : ℚ) : ℚ := ((⌊x * 100 + 1 / 2⌋ : ℤ) : ℚ) / 100

/-! ## Data model (`src/src/types/ZepTypes.ts`, runtime view) -/

/-- The pagination block of `ZepAttendanceResponse.meta` (only the two fields
the spec's pagination contract mentions). -/
structure ZepMeta where
  current_page : Nat
  last_page : Nat
deriving Repr, DecidableEq

/-- One raw vendor attendance item (`ZepAttendanceItem`).  Fields the client
reads defensively (`?.`, `|| default`) — and `duration`, which raw JSON may
omit — are `Option`s. -/
structure ZepAttendanceItem where
  id : Int
  date : String
  «from» : String
  «to» : String
  employee_id : String
  duration : Option ℚ
  note : Option String
  billable : Option Bool
  project_id : Option Int
  activity_id : Option String
deriving Repr, DecidableEq

/-- The vendor list response (`ZepAttendanceResponse`): `data` is `none` when
the body has no array there (the `!Array.isArray(data.data)` check). -/
structure ZepAttendanceResponse where
  data : Option (List ZepAttendanceItem)
  meta : Option ZepMeta
deriving Repr, DecidableEq

/-- The client's canonical time entry (`ZepTimeEntry`).  `duration` is
`Option ℚ` because `transformZepResponse` copies the vendor value verbatim,
`undefined` included. -/
structure ZepTimeEntry where
  id : String
  ticketId : String
  employeeId : String
  employeeName : String
  date : String
  startTime : String
  endTime : String
  duration : Option ℚ
  description : String
  project : String
  activity : String
  billable : Bool
deriving Repr, DecidableEq

/-- Per-ticket metadata (`ZepTicketDetails`).  The declaring `ZepTypes`
variant is not among the repository sources; the fields are reconstructed
from their uses in `ZepIntegrationService.calculateTicketSummaries`
(`ticket.id`, `ticket.plannedHours`) and the spec's TicketDetails record. -/
structure ZepTicketDetails where
  id : String
  title : String
  plannedHours : ℚ
deriving Repr, DecidableEq

/-- Per-ticket rollup (`ZepTicketSummary`), as assembled by
`calculateTicketSummaries`. -/
structure ZepTicketSummary where
  ticketId : String
  plannedHours : ℚ
  actualHours : Option ℚ
  entryCount : Nat
  ticketDetails : Option ZepTicketDetails
deriving Repr, DecidableEq

/-- `{ from, to }` as produced by `getDateRange`. -/
structure DateRange where
  «from» : String
  «to» : String
deriving Repr, DecidableEq

/-- The overall aggregate (`TimeEntrySummary`). -/
structure TimeEntrySummary where
  totalEntries : Nat
  totalHours : Option ℚ
  totalPlannedHours : ℚ
  ticketSummaries : List ZepTicketSummary
  ticketIds : List String
  dateRange : DateRange
deriving Repr, DecidableEq

/-- The errors `getTimeEntriesForTicket` can raise, plus the unclassified
throwables the aggregation loop's `catch` distinguishes:
`cors` is `ZepCorsError`, `conn` is `ZepApiConnectionError` (message and
optional HTTP status code), `other` is any other thrown value. -/
inductive FetchError where
  | cors (message : String)
  | conn (message : String) (statusCode : Option Nat)
  | other (message : String)
deriving Repr, DecidableEq

/-- The distinct failure badges of `executeZepIntegration`'s
`ApiCallResult` error returns, one constructor per `return { success: false }`
site of the fetch/aggregate phase. -/
inductive IntegrationError where
  | cors (error : String)
  | api (error : String)
  | noData (error : String)
  | updateFailed (error : String)
deriving Repr, DecidableEq

/-- `ApiCallResult<T>`: `{ success: true, data }` or
`{ success: false, error }`. -/
inductive ApiCallResult (α : Type) where
  | ok (data : α)
  | err (error : String)
deriving Repr, DecidableEq

/-! ## `ZepApiService` (first class copy, `ZepApiService.ts` lines 12–280) -/

namespace ZepApiService

/-- The service's mutable configuration fields. -/
structure ApiState where
  apiKey : String
  baseUrl : String
  useProxy : Bool
  proxyUrl : String
deriving Repr, DecidableEq

/-- The initial field values (lines 13–16). -/
def initialState : ApiState :=
  { apiKey := ""
    baseUrl := ""
    useProxy := false
    proxyUrl := "https://zep-proxy-server.onrender.com/api/zep" }

/-- `.replace(/\/$/, '')`: remove one trailing slash. -/
def stripTrailingSlash (s : String) : String :=
  if s.endsWith "/" then s.dropRight 1 else s

/-- `setCredentials(apiKey, baseUrl, useProxy = false, proxyUrl?)`:
`proxyUrl` is only overwritten when truthy (present and nonempty). -/
def setCredentials (st : ApiState) (apiKey baseUrl : String)
    (useProxy : Bool := false) (proxyUrl : Option String := none) : ApiState :=
  { apiKey := apiKey
    baseUrl := stripTrailingSlash baseUrl
    useProxy := useProxy
    proxyUrl :=
      match proxyUrl with
      | some p => if p = "" then st.proxyUrl else stripTrailingSlash p
      | none => st.proxyUrl }

/-- `clearCredentials()`: resets `apiKey`, `baseUrl`, `useProxy`; does not
touch `proxyUrl`. -/
def clearCredentials (st : ApiState) : ApiState :=
  { st with apiKey := "", baseUrl := "", useProxy := false }

/-- `getApiUrl(endpoint)`. -/
def getApiUrl (st : ApiState) (endpoint : String) : String :=
  if st.useProxy then st.proxyUrl ++ endpoint
  else st.baseUrl ++ "/api/v1" ++ endpoint

/-- One HTTP GET as the client builds it: URL plus query parameters. -/
structure ZepRequest where
  url : String
  params : List (String × String)
deriving Repr, DecidableEq

/-- What the abstract transport hands back for one request: a parsed JSON
body on a 2xx response (`none` for a non-object body), a non-ok status with
its body text, or a thrown `TypeError('Failed to fetch')`. -/
inductive HttpOutcome where
  | success (data : Option ZepAttendanceResponse)
  | httpError (status : Nat) (body : String)
  | networkFailure
deriving Repr, DecidableEq

/-- `transformZepResponse(data, ticketId)`: the `data.data` array mapped to
canonical entries, `[]` when there is no array.  Fallbacks mirror the source:
`note || ''`, `project_id?.toString() || ticketId`, `activity_id || ''`,
`billable || false`; `duration` is copied with no fallback. -/
def transformZepResponse (data : Option ZepAttendanceResponse)
    (ticketId : String) : List ZepTimeEntry :=
  match data with
  | none => []
  | some resp =>
    match resp.data with
    | none => []
    | some items =>
      items.map fun item =>
        { id := toString item.id
          ticketId := ticketId
          employeeId := item.employee_id
          employeeName := item.employee_id
          date := item.date
          startTime := item.«from»
          endTime := item.«to»
          duration := item.duration
          description := item.note.getD ""
          project :=
            match item.project_id with
            | some p => toString p
            | none => ticketId
          activity := item.activity_id.getD ""
          billable := item.billable.getD false }

/-- The CORS remediation message thrown on `Failed to fetch`
(abbreviated to its first line; the theorems only compare errors by
class and leading text). -/
def corsErrorMessage : String :=
  "CORS Error: Cannot connect to ZEP API directly."

/-- The `!response.ok` branch of `getTimeEntriesForTicket` (lines 81–92):
401, 403 and 404 get fixed messages, anything else the generic message with
status and body; all become `ZepApiConnectionError`s. -/
def classifyHttpError (status : Nat) (body : String) : FetchError :=
  match status with
  | 401 => .conn "Invalid API key. Please check your ZEP credentials." (some 401)
  | 403 => .conn "Access forbidden. Check your API permissions." (some 403)
  | 404 => .conn "API endpoint not found. Check the base URL." (some 404)
  | _ => .conn ("ZEP API error (" ++ toString status ++ "): " ++ body) (some status)

/-- `getTimeEntriesForTicket(ticketId)` against an abstract transport
`respond`.  Returns the requests issued alongside the result.  With
credentials unconfigured it throws before any request; otherwise it issues
exactly one GET on `/attendances` with `ticket_id` as the only query
parameter and classifies the outcome as the source's `catch` does. -/
def getTimeEntriesForTicket (st : ApiState) (ticketId : String)
    (respond : ZepRequest → HttpOutcome) :
    List ZepRequest × Except FetchError (List ZepTimeEntry) :=
  if st.apiKey = "" ∨ st.baseUrl = "" then
    ([], .error (.conn "ZEP API credentials not configured" none))
  else
    let req : ZepRequest :=
      { url := getApiUrl st "/attendances", params := [("ticket_id", ticketId)] }
    ([req],
      match respond req with
      | .success data => .ok (transformZepResponse data ticketId)
      | .httpError status body => .error (classifyHttpError status body)
      | .networkFailure => .error (.cors corsErrorMessage))

end ZepApiService

/-! ## `WorkItemService` (`WorkItemService.ts`) -/

namespace WorkItemService

/-- JavaScript `split(',')` at character level: every comma starts a new
segment, so adjacent commas give empty segments and the empty input gives
one empty segment.  (Character-level rather than `String.splitOn` so that
concrete instances evaluate in the kernel; the two agree on `","`.) -/
def splitOnCommaChars : List Char → List (List Char)
  | [] => [[]]
  | c :: rest =>
    if c = ',' then [] :: splitOnCommaChars rest
    else
      match splitOnCommaChars rest with
      | [] => [[c]]
      | group :: groups => (c :: group) :: groups

/-- `String(value).split(',')`. -/
def jsSplitComma (s : String) : List String :=
  (splitOnCommaChars s.data).map String.mk

/-- JavaScript `trim()`: strip leading and trailing whitespace. -/
def jsTrim (s : String) : String :=
  String.mk
    (((s.data.dropWhile Char.isWhitespace).reverse.dropWhile
      Char.isWhitespace).reverse)

/-- `getZepTicketIds()` as a function of the `Custom.ZEPNummer` field value
(`none` for an absent/null field).  A falsy value errors; otherwise the value
is split on commas, segments trimmed, empty segments dropped, and an empty
result errors. -/
def getZepTicketIds : Option String → ApiCallResult (List String)
  | none => .err "No ZEP ticket IDs found in Custom.ZEPNummer field"
  | some v =>
    if v = "" then .err "No ZEP ticket IDs found in Custom.ZEPNummer field"
    else
      let ticketIds := ((jsSplitComma v).map jsTrim).filter
        (fun id => id.length > 0)
      if ticketIds.length = 0 then
        .err "Custom.ZEPNummer field is empty or contains no valid ticket IDs"
      else .ok ticketIds

end WorkItemService

/-! ## `CredentialService` (`CredentialService.ts`)

`encrypt` is `btoa(encodeURIComponent(text))` and `decrypt` is
`decodeURIComponent(atob(text))` with a fallback to the input on any decoding
failure.  Both are embedded executably: percent-encoding over UTF-8 bytes and
base64 over byte values, with the partial decoders returning `Option`. -/

namespace CredentialService

/-- The characters `encodeURIComponent` leaves unescaped:
`A–Z a–z 0–9 - _ . ! ~ * ' ( )` (by code point). -/
def unreservedChar (c : Char) : Bool :=
  let n := c.toNat
  (65 ≤ n && n ≤ 90) || (97 ≤ n && n ≤ 122) || (48 ≤ n && n ≤ 57) ||
  n == 45 || n == 95 || n == 46 || n == 33 || n == 126 || n == 42 ||
  n == 39 || n == 40 || n == 41

/-- Uppercase hexadecimal digit for a value below 16. -/
def hexDigit (n : Nat) : Char :=
  if n < 10 then Char.ofNat (48 + n) else Char.ofNat (55 + n)

/-- Value of a hexadecimal digit character (either case), `none` otherwise. -/
def hexValue (c : Char) : Option Nat :=
  let n := c.toNat
  if 48 ≤ n && n ≤ 57 then some (n - 48)
  else if 65 ≤ n && n ≤ 70 then some (n - 55)
  else if 97 ≤ n && n ≤ 102 then some (n - 87)
  else none

/-- UTF-8 encoding of one scalar value, as a list of byte values. -/
def utf8EncodeChar (c : Char) : List Nat :=
  let n := c.toNat
  if n < 128 then [n]
  else if n < 2048 then [192 + n / 64, 128 + n % 64]
  else if n < 65536 then [224 + n / 4096, 128 + (n / 64) % 64, 128 + n % 64]
  else [240 + n / 262144, 128 + (n / 4096) % 64, 128 + (n / 64) % 64, 128 + n % 64]

/-- `encodeURIComponent(s)`: unreserved characters pass through, every other
character contributes `%XX` per UTF-8 byte. -/
def encodeURIComponent (s : String) : String :=
  String.mk (s.data.foldr
    (fun c acc =>
      (if unreservedChar c then [c]
       else (utf8EncodeChar c).foldr
        (fun b a => '%' :: hexDigit (b / 16) :: hexDigit (b % 16) :: a) [])
      ++ acc)
    [])

/-- Character of one base64 sextet value. -/
def b64Char (n : Nat) : Char :=
  if n < 26 then Char.ofNat (65 + n)
  else if n < 52 then Char.ofNat (97 + n - 26)
  else if n < 62 then Char.ofNat (48 + n - 52)
  else if n = 62 then '+'
  else '/'

/-- Sextet value of one base64 character, `none` otherwise. -/
def b64Value (c : Char) : Option Nat :=
  let n := c.toNat
  if 65 ≤ n && n ≤ 90 then some (n - 65)
  else if 97 ≤ n && n ≤ 122 then some (n - 97 + 26)
  else if 48 ≤ n && n ≤ 57 then some (n - 48 + 52)
  else if n == 43 then some 62
  else if n == 47 then some 63
  else none

/-- Base64 encoding of a list of byte values, `=`-padded. -/
def base64Encode : List Nat → List Char
  | [] => []
  | [a] => [b64Char (a / 4), b64Char (a % 4 * 16), '=', '=']
  | [a, b] => [b64Char (a / 4), b64Char (a % 4 * 16 + b / 16), b64Char (b % 16 * 4), '=']
  | a :: b :: c :: rest =>
    b64Char (a / 4) :: b64Char (a % 4 * 16 + b / 16) ::
    b64Char (b % 16 * 4 + c / 64) :: b64Char (c % 64) :: base64Encode rest

/-- `btoa(s)`: base64 over the string's code units (the callers only pass
ASCII, where code unit = code point = byte). -/
def btoa (s : String) : String :=
  String.mk (base64Encode (s.data.map Char.toNat))

/-- Base64 decoding of a `=`-stripped character list into byte values. -/
def base64DecodeChars : List Char → Option (List Nat)
  | [] => some []
  | [_] => none
  | [a, b] => do
    let va ← b64Value a
    let vb ← b64Value b
    pure [va * 4 + vb / 16]
  | [a, b, c] => do
    let va ← b64Value a
    let vb ← b64Value b
    let vc ← b64Value c
    pure [va * 4 + vb / 16, vb % 16 * 16 + vc / 4]
  | a :: b :: c :: d :: rest => do
    let va ← b64Value a
    let vb ← b64Value b
    let vc ← b64Value c
    let vd ← b64Value d
    let tail ← base64DecodeChars rest
    pure ((va * 4 + vb / 16) :: (vb % 16 * 16 + vc / 4) :: (vc % 4 * 64 + vd) :: tail)

/-- `atob(s)`: strip trailing `=` padding, decode; `none` models the thrown
`InvalidCharacterError`. -/
def atob (s : String) : Option String :=
  (base64DecodeChars ((s.data.reverse.dropWhile (· == '=')).reverse)).map
    (fun bytes => String.mk (bytes.map Char.ofNat))

/-- UTF-8 decoding of byte values, rejecting truncated, overlong, surrogate
and out-of-range sequences (`none` models the thrown `URIError`). -/
def utf8DecodeBytes : List Nat → Option (List Char)
  | [] => some []
  | b :: rest =>
    if b < 128 then (utf8DecodeBytes rest).map (Char.ofNat b :: ·)
    else if b < 192 then none
    else if b < 224 then
      match rest with
      | b2 :: rest2 =>
        if 128 ≤ b2 && b2 < 192 then
          let n := (b - 192) * 64 + (b2 - 128)
          if n < 128 then none
          else (utf8DecodeBytes rest2).map (Char.ofNat n :: ·)
        else none
      | _ => none
    else if b < 240 then
      match rest with
      | b2 :: b3 :: rest3 =>
        if (128 ≤ b2 && b2 < 192) && (128 ≤ b3 && b3 < 192) then
          let n := (b - 224) * 4096 + (b2 - 128) * 64 + (b3 - 128)
          if n < 2048 || (55296 ≤ n && n ≤ 57343) then none
          else (utf8DecodeBytes rest3).map (Char.ofNat n :: ·)
        else none
      | _ => none
    else if b < 248 then
      match rest with
      | b2 :: b3 :: b4 :: rest4 =>
        if (128 ≤ b2 && b2 < 192) && (128 ≤ b3 && b3 < 192) && (128 ≤ b4 && b4 < 192) then
          let n := (b - 240) * 262144 + (b2 - 128) * 4096 + (b3 - 128) * 64 + (b4 - 128)
          if n < 65536 || 1114111 < n then none
          else (utf8DecodeBytes rest4).map (Char.ofNat n :: ·)
        else none
      | _ => none
    else none

/-- Percent-decoding to byte values: `%XX` becomes one byte, any other
character contributes its UTF-8 bytes. -/
def percentDecodeBytes : List Char → Option (List Nat)
  | [] => some []
  | c :: rest =>
    if c.toNat = 37 then
      match rest with
      | h1 :: h2 :: rest2 => do
        let v1 ← hexValue h1
        let v2 ← hexValue h2
        let tail ← percentDecodeBytes rest2
        pure ((v1 * 16 + v2) :: tail)
      | _ => none
    else do
      let tail ← percentDecodeBytes rest
      pure (utf8EncodeChar c ++ tail)

/-- `decodeURIComponent(s)`: percent-decode, then UTF-8 decode. -/
def decodeURIComponent (s : String) : Option String :=
  (percentDecodeBytes s.data).bind fun bytes =>
    (utf8DecodeBytes bytes).map String.mk

/-- `encrypt(text) = btoa(encodeURIComponent(text))`. -/
def encrypt (text : String) : String := btoa (encodeURIComponent text)

/-- `decrypt(text)`: `decodeURIComponent(atob(text))`, falling back to the
raw input when either step fails. -/
def decrypt (text : String) : String :=
  ((atob text).bind decodeURIComponent).getD text

/-- The JSON object `saveCredentialsToLocalStorage` stores under
`zep-api-credentials` (matching `CredentialStorage` in `ZepTypes.ts`). -/
structure StoredCredentials where
  apiKey : String
  baseUrl : String
  updatedAt : String
deriving Repr, DecidableEq

/-- What `getCredentials` hands back: the four optional credential fields. -/
structure Credentials where
  apiKey : Option String
  baseUrl : Option String
  useProxy : Option Bool
  proxyUrl : Option String
deriving Repr, DecidableEq

/-- `saveCredentialsToLocalStorage(apiKey, baseUrl, useProxy, proxyUrl)`:
overwrites the stored object with `{apiKey: encrypt(apiKey), baseUrl,
updatedAt}` — the `useProxy` and `proxyUrl` parameters are accepted but not
written.  `now` stands for `new Date().toISOString()`; the `store` argument
is the prior localStorage slot (unused: the write is wholesale). -/
def saveCredentialsToLocalStorage (apiKey baseUrl : String)
    (useProxy : Bool) (proxyUrl : String) (now : String)
    (store : Option StoredCredentials) : Option StoredCredentials :=
  let _ := useProxy
  let _ := proxyUrl
  let _ := store
  some { apiKey := encrypt apiKey, baseUrl := baseUrl, updatedAt := now }

/-- `getCredentialsFromLocalStorage()`: decrypt the stored `apiKey` when
truthy, pass `baseUrl || undefined` through, and return nothing for
`useProxy` / `proxyUrl` (they are not read). -/
def getCredentialsFromLocalStorage
    (store : Option StoredCredentials) : Credentials :=
  match store with
  | none => { apiKey := none, baseUrl := none, useProxy := none, proxyUrl := none }
  | some credentials =>
    { apiKey := if credentials.apiKey = "" then none else some (decrypt credentials.apiKey)
      baseUrl := if credentials.baseUrl = "" then none else some credentials.baseUrl
      useProxy := none
      proxyUrl := none }

end CredentialService

/-! ## `ZepIntegrationService` (`src/unnamed/part_002`) -/

namespace ZepIntegrationService

/-- `calculateTotalHours(timeEntries)`: `reduce((sum, e) => sum + e.duration, 0)`
then `Math.round(total * 100) / 100`.  `none` is the `NaN` produced when some
entry's duration is `undefined`. -/
def calculateTotalHours (timeEntries : List ZepTimeEntry) : Option ℚ :=
  (timeEntries.foldl (fun sum entry => jsAdd sum entry.duration) (some 0)).map
    (fun total => ((mathRound (total * 100) : ℤ) : ℚ) / 100)

/-- `getDateRange(timeEntries)`: today/today when empty, else first and last
of the lexicographically sorted date list (JavaScript's default `sort()` on
strings).  `today` stands for `new Date().toISOString().split('T')[0]`. -/
def getDateRange (today : String) (timeEntries : List ZepTimeEntry) : DateRange :=
  if timeEntries.isEmpty then { «from» := today, «to» := today }
  else
    let dates := List.insertionSort (· ≤ ·) (timeEntries.map (·.date))
    { «from» := dates.headD "", «to» := dates.getLastD "" }

/-- JavaScript `Map.set` on an insertion-ordered association list: an existing
key keeps its position, a new key is appended. -/
def mapSet {β : Type} : List (String × β) → String → β → List (String × β)
  | [], k, v => [(k, v)]
  | (k', v') :: rest, k, v =>
    if k' = k then (k', v) :: rest else (k', v') :: mapSet rest k v

/-- JavaScript `Map.get`. -/
def mapGet {β : Type} : List (String × β) → String → Option β
  | [], _ => none
  | (k', v') :: rest, k => if k' = k then some v' else mapGet rest k

/-- `calculateTicketSummaries(timeEntries, ticketDetails)`: initialize one
zero summary per ticket with details, then fold the entries in, accumulating
`actualHours` and `entryCount` per `ticketId`; result in map insertion
order. -/
def calculateTicketSummaries (timeEntries : List ZepTimeEntry)
    (ticketDetails : List ZepTicketDetails) : List ZepTicketSummary :=
  let ticketMap : List (String × ZepTicketSummary) :=
    ticketDetails.foldl
      (fun m ticket =>
        mapSet m ticket.id
          { ticketId := ticket.id
            plannedHours := ticket.plannedHours
            actualHours := some 0
            entryCount := 0
            ticketDetails := some ticket })
      []
  let finalMap :=
    timeEntries.foldl
      (fun m entry =>
        let existing := (mapGet m entry.ticketId).getD
          { ticketId := entry.ticketId
            plannedHours := 0
            actualHours := some 0
            entryCount := 0
            ticketDetails := none }
        mapSet m entry.ticketId
          { existing with
            actualHours := jsAdd existing.actualHours entry.duration
            entryCount := existing.entryCount + 1 })
      ticketMap
  finalMap.map (·.2)

/-- The fixed error message `executeZepIntegration` returns on a
`ZepCorsError` from a ticket fetch. -/
def corsAbortMessage : String :=
  "CORS policy prevents direct browser connection to ZEP API. You may need to configure CORS on the ZEP server or use a proxy."

/-- The per-ticket fetch loop of `executeZepIntegration` (part_002 lines
94–131), over a per-ticket fetch oracle standing for
`this.zepApi.getTimeEntriesForTicket`.  Returns the ticket ids actually
attempted and either the concatenated entries or the first fatal error:
a `ZepCorsError` or `ZepApiConnectionError` aborts, any other thrown value
is logged and skipped. -/
def fetchLoop (fetch : String → Except FetchError (List ZepTimeEntry)) :
    List String → List String × Except IntegrationError (List ZepTimeEntry)
  | [] => ([], .ok [])
  | ticketId :: rest =>
    match fetch ticketId with
    | .ok entries =>
      let (attempted, r) := fetchLoop fetch rest
      (ticketId :: attempted, r.map (entries ++ ·))
    | .error (.cors _) => ([ticketId], .error (.cors corsAbortMessage))
    | .error (.conn message _) =>
      ([ticketId], .error (.api ("ZEP API Error: " ++ message)))
    | .error (.other _) =>
      let (attempted, r) := fetchLoop fetch rest
      (ticketId :: attempted, r)

/-- Steps 3–5 of `executeZepIntegration` (part_002 lines 89–170): run the
fetch loop, fail with the "no data" error when zero entries were collected,
otherwise compute `totalHours`, apply the `CUSTOM.IST` update (its outcome
abstracted as `updateResult`), and assemble the legacy summary.  Returns the
attempted ticket ids alongside the result. -/
def executeZepIntegrationCore
    (fetch : String → Except FetchError (List ZepTimeEntry))
    (updateResult : Except String Unit) (today : String)
    (ticketIds : List String) :
    List String × Except IntegrationError TimeEntrySummary :=
  let (attempted, fetched) := fetchLoop fetch ticketIds
  (attempted,
    match fetched with
    | .error e => .error e
    | .ok allTimeEntries =>
      if allTimeEntries.length = 0 then
        .error (.noData ("No time entries found for ZEP tickets: " ++
          String.intercalate ", " ticketIds))
      else
        match updateResult with
        | .error e => .error (.updateFailed e)
        | .ok _ =>
          .ok { totalEntries := allTimeEntries.length
                totalHours := calculateTotalHours allTimeEntries
                totalPlannedHours := 0
                ticketSummaries := []
                ticketIds := ticketIds
                dateRange := getDateRange today allTimeEntries })

/-- The per-ticket fetch as `executeZepIntegration` performs it: the result
of `this.zepApi.getTimeEntriesForTicket(ticketId)` against a per-ticket HTTP
outcome `respond`. -/
def zepFetch (st : ZepApiService.ApiState)
    (respond : String → ZepApiService.HttpOutcome) :
    String → Except FetchError (List ZepTimeEntry) :=
  fun ticketId =>
    (ZepApiService.getTimeEntriesForTicket st ticketId (fun _ => respond ticketId)).2

/-- `executeZepIntegration`'s fetch phase composed with the real client. -/
def executeZepIntegrationRun (st : ZepApiService.ApiState)
    (respond : String → ZepApiService.HttpOutcome)
    (updateResult : Except String Unit) (today : String)
    (ticketIds : List String) :
    List String × Except IntegrationError TimeEntrySummary :=
  executeZepIntegrationCore (zepFetch st respond) updateResult today ticketIds

/-- The abort error `executeZepIntegration` produces for a non-2xx HTTP
outcome on some ticket: the fixed CORS message for a network failure, and
`ZEP API Error: ` plus the classified connection message otherwise (written
out for use in theorem statements; the `success` branch is arbitrary, the
theorems only apply it to non-success outcomes). -/
def expectedFatalError : ZepApiService.HttpOutcome → IntegrationError
  | .networkFailure => .cors corsAbortMessage
  | .httpError status body =>
    match ZepApiService.classifyHttpError status body with
    | .conn m _ => .api ("ZEP API Error: " ++ m)
    | .cors _ => .cors corsAbortMessage
    | .other _ => .api ""
  | .success _ => .api ""

/-- The summary assembly of `getTimeEntriesForWorkItem` (part_002 lines
336–355), as a function of the fetched entries and ticket details: here
`totalHours` is the raw `reduce` sum — no rounding — and `totalPlannedHours`
sums the per-ticket planned hours. -/
def getTimeEntriesForWorkItemSummary (today : String) (ticketIds : List String)
    (allTimeEntries : List ZepTimeEntry)
    (ticketDetails : List ZepTicketDetails) : TimeEntrySummary :=
  let ticketSummaries := calculateTicketSummaries allTimeEntries ticketDetails
  { totalEntries := allTimeEntries.length
    totalHours :=
      allTimeEntries.foldl (fun sum entry => jsAdd sum entry.duration) (some 0)
    totalPlannedHours :=
      ticketSummaries.foldl (fun sum ticket => sum + ticket.plannedHours) 0
    ticketSummaries := ticketSummaries
    ticketIds := ticketIds
    dateRange := getDateRange today allTimeEntries }

end ZepIntegrationService

/-! ## Concrete fixtures for counterexamples and witnesses -/

/-- A configured client (nonempty key and base URL). -/
def testApiState : ZepApiService.ApiState :=
  { apiKey := "test-api-key"
    baseUrl := "https://zep.example.com"
    useProxy := false
    proxyUrl := "https://proxy.example.com/api/zep" }

/-- A vendor item with the given id, date and duration and defaults
elsewhere. -/
def sampleItem (n : Int) (date : String) (duration : Option ℚ) : ZepAttendanceItem :=
  { id := n
    date := date
    «from» := "09:00"
    «to» := "10:00"
    employee_id := "emp-1"
    duration := duration
    note := none
    billable := some true
    project_id := some 10
    activity_id := none }

/-- A canonical entry with the given id, date and duration and defaults
elsewhere. -/
def sampleEntry (id date : String) (duration : Option ℚ) : ZepTimeEntry :=
  { id := id
    ticketId := "8136"
    employeeId := "emp-1"
    employeeName := "emp-1"
    date := date
    startTime := "09:00"
    endTime := "10:00"
    duration := duration
    description := ""
    project := "10"
    activity := ""
    billable := true }

/-- A transport whose every response is a successful 3-page first page
(`last_page = 3`): the mocked paginated backend of claim C3. -/
def threePageRespond : ZepApiService.ZepRequest → ZepApiService.HttpOutcome :=
  fun _ =>
    .success (some
      { data := some [sampleItem 1 "2024-03-01" (some 1)]
        meta := some { current_page := 1, last_page := 3 } })

/-- Per-ticket outcomes for claim C1's scenario: ticket `A` answers 404
(not found), every other ticket succeeds with two one-hour entries. -/
def c1Respond : String → ZepApiService.HttpOutcome :=
  fun ticketId =>
    if ticketId = "A" then .httpError 404 "not found"
    else
      .success (some
        { data := some [sampleItem 1 "2024-03-01" (some 1), sampleItem 2 "2024-03-02" (some 1)]
          meta := none })

/-- Per-ticket outcomes for claim C2's witness: ticket `B` answers 401,
every other ticket succeeds. -/
def c2Respond : String → ZepApiService.HttpOutcome :=
  fun ticketId =>
    if ticketId = "B" then .httpError 401 "unauthorized"
    else
      .success (some { data := some [sampleItem 1 "2024-03-01" (some 1)], meta := none })

/-- A per-ticket fetch oracle where ticket `A` throws an unclassified error
and every other ticket yields two entries. -/
def skipFetch : String → Except FetchError (List ZepTimeEntry) :=
  fun ticketId =>
    if ticketId = "A" then .error (.other "boom")
    else .ok [sampleEntry "1" "2024-03-01" (some 1), sampleEntry "2" "2024-03-02" (some (5 / 4))]

/-- A vendor response containing an item with negative duration and an item
with the duration field missing. -/
def c7Response : ZepAttendanceResponse :=
  { data := some [sampleItem 1 "2024-03-01" (some (-1)), sampleItem 2 "2024-03-02" none]
    meta := none }

/-- A single entry whose duration `1/200 = 0.005` needs rounding at two
decimals. -/
def c4Entry : ZepTimeEntry := sampleEntry "1" "2024-03-01" (some (1 / 200))

/-! ## C10 — `clearCredentials` resets all but `proxyUrl` -/

/-- C10: for every prior configuration of the API client, `clearCredentials`
resets `apiKey` and `baseUrl` to the empty string and `useProxy` to `false`,
and leaves the stored `proxyUrl` unchanged. -/
theorem clearCredentials_frame (st : ZepApiService.ApiState) :
    ZepApiService.clearCredentials st =
      { apiKey := "", baseUrl := "", useProxy := false, proxyUrl := st.proxyUrl } :=
  rfl

/-! ## C6 — ticket-id parsing -/

/-- C6: `getZepTicketIds` splits the field on commas, trims each segment and
drops empty segments — on `"8136, 8403 ,, 8501"` it yields
`["8136", "8403", "8501"]` — and an absent or empty field value is an error,
never an empty list. -/
theorem getZepTicketIds_spec :
    WorkItemService.getZepTicketIds (some "8136, 8403 ,, 8501") =
      .ok ["8136", "8403", "8501"] ∧
    WorkItemService.getZepTicketIds none =
      .err "No ZEP ticket IDs found in Custom.ZEPNummer field" ∧
    WorkItemService.getZepTicketIds (some "") =
      .err "No ZEP ticket IDs found in Custom.ZEPNummer field" ∧
    ∀ (s : String) (l : List String),
      WorkItemService.getZepTicketIds (some s) = .ok l →
      l = ((WorkItemService.jsSplitComma s).map WorkItemService.jsTrim).filter
        (fun id => id.length > 0) := by
  refine ⟨by decide, rfl, by decide, ?_⟩
  intro s l h
  unfold WorkItemService.getZepTicketIds at h
  dsimp only at h
  split_ifs at h
  all_goals
    first
    | exact ApiCallResult.noConfusion h
    | exact ((ApiCallResult.ok.injEq _ _).mp h).symm

/-- Witness for C6: the general parsing clause applied at the concrete
input. -/
theorem getZepTicketIds_spec_witness :
    ["8136", "8403", "8501"] =
      ((WorkItemService.jsSplitComma "8136, 8403 ,, 8501").map
        WorkItemService.jsTrim).filter (fun id => id.length > 0) :=
  getZepTicketIds_spec.2.2.2 "8136, 8403 ,, 8501" ["8136", "8403", "8501"]
    getZepTicketIds_spec.1

/-! ## C3 — the client does not paginate -/

/-- Counterexample to C3: against a mocked 3-page backend (every response
carries `meta.last_page = 3`), `getTimeEntriesForTicket` issues exactly one
request, not three. -/
theorem pagination_counterexample :
    ((ZepApiService.getTimeEntriesForTicket testApiState "8136"
        threePageRespond).1).length = 1 ∧
    ((ZepApiService.getTimeEntriesForTicket testApiState "8136"
        threePageRespond).1).length ≠ 3 := by
  have h1 : ((ZepApiService.getTimeEntriesForTicket testApiState "8136"
      threePageRespond).1).length = 1 := rfl
  exact ⟨h1, by rw [h1]; decide⟩

/-- C3 amended: with credentials configured, the client issues exactly one
request per ticket — on the `/attendances` URL with `ticket_id` as the only
query parameter — and carries no `page` parameter at all; pagination
metadata in the response is ignored. -/
theorem single_request_per_ticket
    (st : ZepApiService.ApiState) (ticketId : String)
    (respond : ZepApiService.ZepRequest → ZepApiService.HttpOutcome)
    (hKey : st.apiKey ≠ "") (hUrl : st.baseUrl ≠ "") :
    (ZepApiService.getTimeEntriesForTicket st ticketId respond).1 =
      [{ url := ZepApiService.getApiUrl st "/attendances"
         params := [("ticket_id", ticketId)] }] ∧
    ∀ req ∈ (ZepApiService.getTimeEntriesForTicket st ticketId respond).1,
      ∀ v, ("page", v) ∉ req.params := by
  have hcond : ¬(st.apiKey = "" ∨ st.baseUrl = "") := by
    simp [hKey, hUrl]
  have htrace : (ZepApiService.getTimeEntriesForTicket st ticketId respond).1 =
      [{ url := ZepApiService.getApiUrl st "/attendances"
         params := [("ticket_id", ticketId)] }] := by
    rw [ZepApiService.getTimeEntriesForTicket, if_neg hcond]
  refine ⟨htrace, ?_⟩
  intro req hreq v hv
  rw [htrace] at hreq
  simp only [List.mem_singleton] at hreq
  subst hreq
  simp only [List.mem_singleton, Prod.mk.injEq] at hv
  exact absurd hv.1 (by decide)

/-- Witness for `single_request_per_ticket` at a configured client. -/
theorem single_request_per_ticket_witness :
    (ZepApiService.getTimeEntriesForTicket testApiState "8136"
        threePageRespond).1 =
      [{ url := ZepApiService.getApiUrl testApiState "/attendances"
         params := [("ticket_id", "8136")] }] :=
  (single_request_per_ticket testApiState "8136" threePageRespond
    (by decide) (by decide)).1

/-! ## C7 — durations are copied verbatim, not clamped or defaulted -/

/-- Counterexample to C7: the transformation of a response holding an item
with duration `-1` and an item with no duration yields entries with
durations `some (-1)` and `none` — so the produced duration is neither
always non-negative nor `0` for a missing vendor duration. -/
theorem transform_duration_counterexample :
    (ZepApiService.transformZepResponse (some c7Response) "T1").map
        (·.duration) = [some (-1), none] ∧
    ¬ (∀ e ∈ ZepApiService.transformZepResponse (some c7Response) "T1",
        ∃ d, e.duration = some d ∧ 0 ≤ d) := by
  have hmap : (ZepApiService.transformZepResponse (some c7Response) "T1").map
      (·.duration) = [some (-1), none] := rfl
  refine ⟨hmap, ?_⟩
  intro hall
  have hx : ∀ x ∈ (ZepApiService.transformZepResponse (some c7Response)
      "T1").map (·.duration), ∃ d, x = some d ∧ 0 ≤ d := by
    intro x hmem
    obtain ⟨e, he, rfl⟩ := List.mem_map.mp hmem
    exact hall e he
  rw [hmap] at hx
  obtain ⟨d, hd, _⟩ := hx none (by simp)
  exact Option.noConfusion hd

/-- C7 amended: `transformZepResponse` copies the vendor `duration` field
verbatim — a negative vendor duration yields a negative entry duration and a
missing vendor duration yields an entry with no duration value, never a
default of `0`. -/
theorem transform_copies_duration
    (resp : ZepAttendanceResponse) (items : List ZepAttendanceItem)
    (ticketId : String) (h : resp.data = some items) :
    (ZepApiService.transformZepResponse (some resp) ticketId).map
        (·.duration) = items.map (·.duration) := by
  unfold ZepApiService.transformZepResponse
  dsimp only
  rw [h, List.map_map]
  rfl

/-- Witness for `transform_copies_duration` at the concrete response. -/
theorem transform_copies_duration_witness :
    (ZepApiService.transformZepResponse (some c7Response) "T1").map
        (·.duration) =
      [sampleItem 1 "2024-03-01" (some (-1)),
        sampleItem 2 "2024-03-02" none].map (·.duration) :=
  transform_copies_duration c7Response
    [sampleItem 1 "2024-03-01" (some (-1)), sampleItem 2 "2024-03-02" none]
    "T1" rfl

/-! ## Helper lemmas about the fetch loop -/

open ZepApiService ZepIntegrationService

/-- Every non-ok HTTP status is classified as a `ZepApiConnectionError`. -/
theorem classifyHttpError_is_conn (status : Nat) (body : String) :
    ∃ m s, classifyHttpError status body = .conn m s := by
  unfold classifyHttpError
  split <;> exact ⟨_, _, rfl⟩

/-- With credentials configured, the per-ticket fetch is the classification
of the ticket's HTTP outcome. -/
theorem zepFetch_eq (st : ApiState) (hKey : st.apiKey ≠ "")
    (hUrl : st.baseUrl ≠ "") (respond : String → HttpOutcome) (tid : String) :
    zepFetch st respond tid =
      match respond tid with
      | .success data => .ok (transformZepResponse data tid)
      | .httpError status body => .error (classifyHttpError status body)
      | .networkFailure => .error (.cors corsErrorMessage) := by
  unfold zepFetch ZepApiService.getTimeEntriesForTicket
  rw [if_neg (by simp [hKey, hUrl])]

/-- Loop step on a successful fetch: the ticket's entries are prepended and
the loop continues. -/
theorem fetchLoop_cons_ok (fetch : String → Except FetchError (List ZepTimeEntry))
    (t : String) (rest : List String) (es : List ZepTimeEntry)
    (h : fetch t = .ok es) :
    fetchLoop fetch (t :: rest) =
      (t :: (fetchLoop fetch rest).1, ((fetchLoop fetch rest).2).map (es ++ ·)) := by
  rcases hfr : fetchLoop fetch rest with ⟨att, r⟩
  simp [fetchLoop, h, hfr]

/-- Loop step on an unclassified error: the ticket is skipped. -/
theorem fetchLoop_cons_other (fetch : String → Except FetchError (List ZepTimeEntry))
    (t : String) (rest : List String) (m : String)
    (h : fetch t = .error (.other m)) :
    fetchLoop fetch (t :: rest) =
      (t :: (fetchLoop fetch rest).1, (fetchLoop fetch rest).2) := by
  rcases hfr : fetchLoop fetch rest with ⟨att, r⟩
  simp [fetchLoop, h, hfr]

/-- Loop step on a `ZepCorsError`: immediate abort with the fixed CORS
message. -/
theorem fetchLoop_cons_cors (fetch : String → Except FetchError (List ZepTimeEntry))
    (t : String) (rest : List String) (m : String)
    (h : fetch t = .error (.cors m)) :
    fetchLoop fetch (t :: rest) = ([t], .error (.cors corsAbortMessage)) := by
  simp [fetchLoop, h]

/-- Loop step on a `ZepApiConnectionError`: immediate abort with the
`ZEP API Error: `-prefixed message. -/
theorem fetchLoop_cons_conn (fetch : String → Except FetchError (List ZepTimeEntry))
    (t : String) (rest : List String) (m : String) (s : Option Nat)
    (h : fetch t = .error (.conn m s)) :
    fetchLoop fetch (t :: rest) =
      ([t], .error (.api ("ZEP API Error: " ++ m))) := by
  simp [fetchLoop, h]

/-- After a prefix of successfully fetched tickets, the first ticket whose
HTTP outcome is not a success aborts the composed loop with the classified
error, and no later ticket is attempted. -/
theorem fetchLoop_run_fatal (st : ApiState)
    (respond : String → HttpOutcome)
    (hKey : st.apiKey ≠ "") (hUrl : st.baseUrl ≠ "")
    (pre : List String) (t : String) (post : List String)
    (hpre : ∀ p ∈ pre, ∃ d, respond p = .success d)
    (hfatal : ∀ d, respond t ≠ .success d) :
    fetchLoop (zepFetch st respond) (pre ++ t :: post) =
      (pre ++ [t], .error (expectedFatalError (respond t))) := by
  induction pre with
  | nil =>
    simp only [List.nil_append]
    cases ho : respond t with
    | success d => exact absurd ho (hfatal d)
    | httpError status body =>
      obtain ⟨m, s, hms⟩ := classifyHttpError_is_conn status body
      have hft : zepFetch st respond t = .error (.conn m s) := by
        rw [zepFetch_eq st hKey hUrl respond t, ho]
        dsimp only
        rw [hms]
      rw [fetchLoop_cons_conn _ t post m s hft]
      unfold expectedFatalError
      dsimp only
      rw [hms]
    | networkFailure =>
      have hft : zepFetch st respond t = .error (.cors corsErrorMessage) := by
        rw [zepFetch_eq st hKey hUrl respond t, ho]
      rw [fetchLoop_cons_cors _ t post _ hft]
      rfl

  | cons p pre' ih =>
    obtain ⟨d, hd⟩ := hpre p (by simp)
    have hfp : zepFetch st respond p = .ok (transformZepResponse d p) := by
      rw [zepFetch_eq st hKey hUrl respond p, hd]
    have ih' := ih (fun x hx => hpre x (by simp [hx]))
    rw [List.cons_append, fetchLoop_cons_ok _ p _ _ hfp, ih']
    rfl

/-! ## C2 — connectivity/CORS and auth failures abort the whole run -/

/-- C2: if every ticket before `t` fetched successfully and `t`'s HTTP
outcome is not a success — in particular a CORS/network failure or a
401/403 — `executeZepIntegration` aborts at `t`: the tickets after `t` are
never attempted, the classified error (`expectedFatalError`) is returned,
and no partial summary is produced. -/
theorem fatal_error_aborts_aggregation (st : ApiState)
    (respond : String → HttpOutcome) (updateResult : Except String Unit)
    (today : String) (pre : List String) (t : String) (post : List String)
    (hKey : st.apiKey ≠ "") (hUrl : st.baseUrl ≠ "")
    (hpre : ∀ p ∈ pre, ∃ d, respond p = .success d)
    (hfatal : ∀ d, respond t ≠ .success d) :
    executeZepIntegrationRun st respond updateResult today (pre ++ t :: post) =
      (pre ++ [t], .error (expectedFatalError (respond t))) := by
  unfold executeZepIntegrationRun executeZepIntegrationCore
  rw [fetchLoop_run_fatal st respond hKey hUrl pre t post hpre hfatal]

/-- Witness for C2: ticket `B` answers 401 after a successful ticket `A`;
the run aborts without attempting ticket `C`. -/
theorem fatal_error_aborts_aggregation_witness :
    executeZepIntegrationRun testApiState c2Respond (.ok ()) "2024-03-05"
        (["A"] ++ "B" :: ["C"]) =
      (["A"] ++ ["B"], .error (expectedFatalError (c2Respond "B"))) :=
  fatal_error_aborts_aggregation testApiState c2Respond (.ok ()) "2024-03-05"
    ["A"] "B" ["C"] (by decide) (by decide)
    (by
      intro p hp
      rw [List.mem_singleton] at hp
      subst hp
      exact ⟨_, rfl⟩)
    (by
      intro d h
      rw [show c2Respond "B" = HttpOutcome.httpError 401 "unauthorized" from rfl] at h
      exact HttpOutcome.noConfusion h)

/-! ## C1 — a per-ticket not-found failure is fatal, not skipped -/

/-- Counterexample to C1: ticket `A` answers 404 (not found) and ticket `B`
would succeed with 2 entries, yet `executeZepIntegration(["A","B"])` returns
the 404 connection error — ticket `B` is never attempted and no success with
`totalEntries = 2` is produced. -/
theorem notfound_fatal_counterexample :
    executeZepIntegrationRun testApiState c1Respond (.ok ()) "2024-03-05"
        ["A", "B"] =
      (["A"],
        .error (.api "ZEP API Error: API endpoint not found. Check the base URL.")) :=
  rfl

/-- C1 amended: only a per-ticket error that is neither a
`ZepApiConnectionError` nor a `ZepCorsError` is skipped — then the failing
ticket contributes zero entries and aggregation succeeds on the rest; a
not-found (404) fetch failure is classified as a connection error and aborts
the run instead (see the counterexample). -/
theorem unclassified_error_skipped
    (fetch : String → Except FetchError (List ZepTimeEntry))
    (today A B m : String) (e1 e2 : ZepTimeEntry)
    (hA : fetch A = .error (.other m)) (hB : fetch B = .ok [e1, e2]) :
    (executeZepIntegrationCore fetch (.ok ()) today [A, B]).2 =
      .ok { totalEntries := 2
            totalHours := calculateTotalHours [e1, e2]
            totalPlannedHours := 0
            ticketSummaries := []
            ticketIds := [A, B]
            dateRange := getDateRange today [e1, e2] } := by
  have hloop : fetchLoop fetch [A, B] = ([A, B], .ok [e1, e2]) := by
    rw [fetchLoop_cons_other fetch A [B] m hA,
      fetchLoop_cons_ok fetch B [] [e1, e2] hB]
    rfl
  unfold executeZepIntegrationCore
  rw [hloop]
  rfl

/-- Witness for `unclassified_error_skipped`: the oracle `skipFetch` throws
an unclassified error for `A` and yields two entries for `B`. -/
theorem unclassified_error_skipped_witness :
    (executeZepIntegrationCore skipFetch (.ok ()) "2024-03-05" ["A", "B"]).2 =
      .ok { totalEntries := 2
            totalHours := calculateTotalHours
              [sampleEntry "1" "2024-03-01" (some 1),
                sampleEntry "2" "2024-03-02" (some (5 / 4))]
            totalPlannedHours := 0
            ticketSummaries := []
            ticketIds := ["A", "B"]
            dateRange := getDateRange "2024-03-05"
              [sampleEntry "1" "2024-03-01" (some 1),
                sampleEntry "2" "2024-03-02" (some (5 / 4))] } :=
  unclassified_error_skipped skipFetch "2024-03-05" "A" "B" "boom"
    (sampleEntry "1" "2024-03-01" (some 1))
    (sampleEntry "2" "2024-03-02" (some (5 / 4))) rfl rfl

/-! ## C5 — zero collected entries yield the "no data" error -/

/-- C5: when every attempted ticket contributes zero entries (it fetched an
empty list or failed with a skippable error), `executeZepIntegration`
returns the "no data" error naming the input ticket ids, and that error is
distinct from a connectivity (CORS) failure. -/
theorem no_entries_noData_error
    (fetch : String → Except FetchError (List ZepTimeEntry))
    (updateResult : Except String Unit) (today : String)
    (ticketIds : List String)
    (h : ∀ t ∈ ticketIds, fetch t = .ok [] ∨ ∃ m, fetch t = .error (.other m)) :
    (executeZepIntegrationCore fetch updateResult today ticketIds).2 =
      .error (.noData ("No time entries found for ZEP tickets: " ++
        String.intercalate ", " ticketIds)) ∧
    ∀ msg, IntegrationError.noData ("No time entries found for ZEP tickets: " ++
        String.intercalate ", " ticketIds) ≠ .cors msg := by
  have hloop : ∀ ids, (∀ t ∈ ids, fetch t = .ok [] ∨ ∃ m, fetch t = .error (.other m)) →
      (fetchLoop fetch ids).2 = .ok [] := by
    intro ids
    induction ids with
    | nil => intro _; rfl
    | cons t rest ih =>
      intro hall
      rcases hall t (by simp) with hok | ⟨m, hother⟩
      · rw [fetchLoop_cons_ok fetch t rest [] hok,
          ih (fun x hx => hall x (by simp [hx]))]
        rfl
      · rw [fetchLoop_cons_other fetch t rest m hother]
        exact ih (fun x hx => hall x (by simp [hx]))
  constructor
  · unfold executeZepIntegrationCore
    rcases hl : fetchLoop fetch ticketIds with ⟨att, r⟩
    have : r = .ok [] := by
      have := hloop ticketIds h
      rw [hl] at this
      exact this
    subst this
    rfl
  · intro msg hne
    exact IntegrationError.noConfusion hne

/-- Witness for `no_entries_noData_error`: both tickets fetch empty entry
lists. -/
theorem no_entries_noData_error_witness :
    (executeZepIntegrationCore (fun _ => .ok []) (.ok ()) "2024-03-05"
        ["8136", "8403"]).2 =
      .error (.noData ("No time entries found for ZEP tickets: " ++
        String.intercalate ", " ["8136", "8403"])) :=
  (no_entries_noData_error (fun _ => .ok []) (.ok ()) "2024-03-05"
    ["8136", "8403"] (fun _ _ => Or.inl rfl)).1

/-! ## C4 — `totalHours`: rounded in the legacy path, raw in the work-item path -/

/-- When every duration is present, the JavaScript `reduce` sum is the
rational sum of the durations. -/
theorem foldl_jsAdd_eq_sum (es : List ZepTimeEntry)
    (h : ∀ e ∈ es, e.duration.isSome) (q : ℚ) :
    es.foldl (fun sum e => jsAdd sum e.duration) (some q) =
      some (q + (es.map (fun e => e.duration.getD 0)).sum) := by
  induction es generalizing q with
  | nil => simp
  | cons a tl ih =>
    obtain ⟨d, hd⟩ := Option.isSome_iff_exists.mp (h a (by simp))
    have h' : ∀ e ∈ tl, e.duration.isSome := fun e he => h e (by simp [he])
    rw [List.foldl_cons]
    rw [hd, show jsAdd (some q) (some d) = some (q + d) from rfl, ih h' (q + d),
      List.map_cons, List.sum_cons, hd]
    simp only [Option.getD_some]
    congr 1
    ring

/-- Counterexample to C4: via `getTimeEntriesForWorkItem`'s summary assembly,
a single fetched entry of `0.005` hours yields `totalHours = 0.005` — the
raw sum, not the half-up two-decimal rounding `0.01` the claim requires. -/
theorem totalHours_unrounded_counterexample :
    (getTimeEntriesForWorkItemSummary "2024-03-05" ["8136"] [c4Entry]
        []).totalHours = some (1 / 200) ∧
    specRoundHalfUp2 (1 / 200) = 1 / 100 ∧
    ((1 : ℚ) / 200) ≠ specRoundHalfUp2 (1 / 200) := by
  have h2 : specRoundHalfUp2 (1 / 200) = 1 / 100 := by
    unfold specRoundHalfUp2
    norm_num
  have h1 : (getTimeEntriesForWorkItemSummary "2024-03-05" ["8136"] [c4Entry]
      []).totalHours = some (1 / 200) := by
    unfold getTimeEntriesForWorkItemSummary
    rw [List.foldl_cons, List.foldl_nil]
    rw [show c4Entry.duration = some (1 / 200) from rfl,
      show jsAdd (some 0) (some (1 / 200)) = some (0 + 1 / 200) from rfl]
    norm_num
  refine ⟨h1, h2, ?_⟩
  rw [h2]
  norm_num

/-- C4 amended: when every entry carries a duration, the legacy path
(`executeZepIntegration` via `calculateTotalHours`) returns the duration sum
rounded half-up at two decimals, while `getTimeEntriesForWorkItem`'s summary
returns the unrounded sum. -/
theorem totalHours_two_paths
    (today : String) (ticketIds : List String) (es : List ZepTimeEntry)
    (details : List ZepTicketDetails)
    (h : ∀ e ∈ es, e.duration.isSome) :
    calculateTotalHours es =
      some (specRoundHalfUp2 ((es.map (fun e => e.duration.getD 0)).sum)) ∧
    (getTimeEntriesForWorkItemSummary today ticketIds es details).totalHours =
      some ((es.map (fun e => e.duration.getD 0)).sum) := by
  have hsum := foldl_jsAdd_eq_sum es h 0
  constructor
  · unfold calculateTotalHours
    rw [hsum]
    simp [mathRound, specRoundHalfUp2]
  · unfold getTimeEntriesForWorkItemSummary
    dsimp only
    rw [hsum]
    simp

/-- Witness for `totalHours_two_paths` at a one-entry list. -/
theorem totalHours_two_paths_witness :
    calculateTotalHours [c4Entry] =
      some (specRoundHalfUp2 (([c4Entry].map (fun e => e.duration.getD 0)).sum)) ∧
    (getTimeEntriesForWorkItemSummary "2024-03-05" ["8136"] [c4Entry]
        []).totalHours =
      some (([c4Entry].map (fun e => e.duration.getD 0)).sum) :=
  totalHours_two_paths "2024-03-05" ["8136"] [c4Entry] [] (by decide)

/-! ## C8 — `dateRange` is the lexicographic min/max of the entry dates -/

/-- The default head of a sorted list is a lower bound for its members. -/
theorem headD_le_of_sorted {α : Type} [LinearOrder α] {l : List α}
    (hs : List.Sorted (· ≤ ·) l) (d : α) : ∀ x ∈ l, l.headD d ≤ x := by
  cases l with
  | nil => simp
  | cons a t =>
    intro x hx
    rcases List.mem_cons.mp hx with rfl | hxt
    · exact le_refl x
    · exact (List.sorted_cons.mp hs).1 x hxt

/-- The default last element of a nonempty list is a member. -/
theorem getLastD_mem_of_ne_nil {α : Type} :
    ∀ (l : List α), l ≠ [] → ∀ d, l.getLastD d ∈ l := by
  intro l
  induction l with
  | nil => intro h; exact absurd rfl h
  | cons a t ih =>
    intro _ d
    cases t with
    | nil => exact List.mem_singleton_self a
    | cons b t' => exact List.mem_cons_of_mem a (ih (by simp) a)

/-- The default head of a nonempty list is a member. -/
theorem headD_mem_of_ne_nil {α : Type} (l : List α) (h : l ≠ []) (d : α) :
    l.headD d ∈ l := by
  cases l with
  | nil => exact absurd rfl h
  | cons a t => exact List.mem_cons_self a t

/-- The default last element of a sorted list is an upper bound for its
members. -/
theorem le_getLastD_of_sorted {α : Type} [LinearOrder α] :
    ∀ (l : List α), List.Sorted (· ≤ ·) l → ∀ (d : α), ∀ x ∈ l,
      x ≤ l.getLastD d := by
  intro l
  induction l with
  | nil => simp
  | cons a t ih =>
    intro hs d x hx
    obtain ⟨ha, hst⟩ := List.sorted_cons.mp hs
    cases t with
    | nil =>
      rcases List.mem_cons.mp hx with rfl | h0
      · exact le_refl x
      · exact absurd h0 (by simp)
    | cons b t' =>
      rcases List.mem_cons.mp hx with rfl | hxt
      · exact ha _ (getLastD_mem_of_ne_nil (b :: t') (by simp) x)
      · exact ih hst a x hxt

/-- C8: for a nonempty entry collection, `dateRange.from` / `dateRange.to`
are the lexicographic minimum / maximum of the entries' date strings, and
for an empty collection both equal today's date. -/
theorem dateRange_min_max (today : String) (es : List ZepTimeEntry) :
    (es = [] → getDateRange today es = { «from» := today, «to» := today }) ∧
    (es ≠ [] →
      ((getDateRange today es).«from» ∈ es.map (·.date) ∧
        ∀ d ∈ es.map (·.date), (getDateRange today es).«from» ≤ d) ∧
      ((getDateRange today es).«to» ∈ es.map (·.date) ∧
        ∀ d ∈ es.map (·.date), d ≤ (getDateRange today es).«to»)) := by
  constructor
  · intro he; subst he; rfl
  · intro hne
    have hcond : ¬(es.isEmpty = true) := by
      simp only [List.isEmpty_iff]
      exact hne
    set dates := List.insertionSort (· ≤ ·) (es.map (·.date)) with hdates
    have hsorted : List.Sorted (· ≤ ·) dates := List.sorted_insertionSort _ _
    have hperm : dates.Perm (es.map (·.date)) := List.perm_insertionSort _ _
    have hdne : dates ≠ [] := by
      intro h0
      have hlen := hperm.length_eq
      rw [h0] at hlen
      simp only [List.length_nil, List.length_map] at hlen
      exact hne (List.length_eq_zero.mp hlen.symm)
    have hrange : getDateRange today es =
        { «from» := dates.headD "", «to» := dates.getLastD "" } := by
      unfold getDateRange
      rw [if_neg hcond]
    rw [hrange]
    refine ⟨⟨?_, ?_⟩, ⟨?_, ?_⟩⟩
    · exact hperm.mem_iff.mp (headD_mem_of_ne_nil dates hdne "")
    · intro d hd
      exact headD_le_of_sorted hsorted "" d (hperm.mem_iff.mpr hd)
    · exact hperm.mem_iff.mp (getLastD_mem_of_ne_nil dates hdne "")
    · intro d hd
      exact le_getLastD_of_sorted dates hsorted "" d (hperm.mem_iff.mpr hd)

/-- Witness for `dateRange_min_max`: the empty case and the membership
clauses at a concrete two-entry list. -/
theorem dateRange_min_max_witness :
    getDateRange "2024-03-05" ([] : List ZepTimeEntry) =
      { «from» := "2024-03-05", «to» := "2024-03-05" } ∧
    (getDateRange "2024-03-05"
        [sampleEntry "1" "2024-03-02" (some 1),
          sampleEntry "2" "2024-03-01" (some 1)]).«from» ∈
      [sampleEntry "1" "2024-03-02" (some 1),
        sampleEntry "2" "2024-03-01" (some 1)].map (·.date) ∧
    (getDateRange "2024-03-05"
        [sampleEntry "1" "2024-03-02" (some 1),
          sampleEntry "2" "2024-03-01" (some 1)]).«to» ∈
      [sampleEntry "1" "2024-03-02" (some 1),
        sampleEntry "2" "2024-03-01" (some 1)].map (·.date) :=
  ⟨(dateRange_min_max "2024-03-05" []).1 rfl,
    ((dateRange_min_max "2024-03-05"
      [sampleEntry "1" "2024-03-02" (some 1),
        sampleEntry "2" "2024-03-01" (some 1)]).2 (by decide)).1.1,
    ((dateRange_min_max "2024-03-05"
      [sampleEntry "1" "2024-03-02" (some 1),
        sampleEntry "2" "2024-03-01" (some 1)]).2 (by decide)).2.1⟩

/-! ## C9 — credentials do not round-trip wholesale -/

/-- A string whose character list is empty is the empty string. -/
theorem string_eq_empty_of_data_eq_nil (s : String) (h : s.data = []) :
    s = "" :=
  congrArg String.mk h

/-- UTF-8 encoding of a character is never empty. -/
theorem utf8EncodeChar_ne_nil (c : Char) :
    CredentialService.utf8EncodeChar c ≠ [] := by
  unfold CredentialService.utf8EncodeChar
  dsimp only
  split_ifs <;> simp

/-- Percent-encoding of a nonempty string is nonempty. -/
theorem encodeURIComponent_ne_empty (s : String) (h : s ≠ "") :
    CredentialService.encodeURIComponent s ≠ "" := by
  obtain ⟨l⟩ := s
  cases l with
  | nil => exact absurd rfl h
  | cons c cs =>
    intro h0
    have hdata := congrArg String.data h0
    rw [CredentialService.encodeURIComponent] at hdata
    dsimp only at hdata
    rw [List.foldr_cons] at hdata
    rcases List.append_eq_nil.mp hdata with ⟨h1, _⟩
    by_cases hc : CredentialService.unreservedChar c
    · rw [if_pos hc] at h1
      exact List.noConfusion h1
    · rw [if_neg hc] at h1
      obtain ⟨b, bs, hb⟩ : ∃ b bs, CredentialService.utf8EncodeChar c = b :: bs := by
        rcases hne : CredentialService.utf8EncodeChar c with _ | ⟨b, bs⟩
        · exact absurd hne (utf8EncodeChar_ne_nil c)
        · exact ⟨b, bs, rfl⟩
      rw [hb, List.foldr_cons] at h1
      exact List.noConfusion h1

/-- Base64 encoding of a nonempty byte list is nonempty. -/
theorem base64Encode_ne_nil (l : List Nat) (h : l ≠ []) :
    CredentialService.base64Encode l ≠ [] := by
  rcases l with _ | ⟨a, _ | ⟨b, _ | ⟨c, rest⟩⟩⟩
  · exact absurd rfl h
  · simp [CredentialService.base64Encode]
  · simp [CredentialService.base64Encode]
  · simp [CredentialService.base64Encode]

/-- `encrypt` maps nonempty strings to nonempty strings. -/
theorem encrypt_ne_empty (s : String) (h : s ≠ "") :
    CredentialService.encrypt s ≠ "" := by
  unfold CredentialService.encrypt CredentialService.btoa
  intro h0
  have hdata := congrArg String.data h0
  dsimp only at hdata
  refine base64Encode_ne_nil _ ?_ hdata
  intro hmap
  rw [List.map_eq_nil_iff] at hmap
  exact encodeURIComponent_ne_empty s h (string_eq_empty_of_data_eq_nil _ hmap)

/-- Counterexample to C9: saving `{apiKey, baseUrl, useProxy := true,
proxyUrl}` and reading back does not return those four values — `useProxy`
comes back unset (the stored JSON object only holds `apiKey`, `baseUrl` and
`updatedAt`). -/
theorem credentials_roundtrip_counterexample :
    ¬ (CredentialService.getCredentialsFromLocalStorage
        (CredentialService.saveCredentialsToLocalStorage "zep-key"
          "https://zep.example.com" true "https://proxy.example.com/api/zep"
          "2024-03-05T00:00:00Z" none) =
      { apiKey := some "zep-key"
        baseUrl := some "https://zep.example.com"
        useProxy := some true
        proxyUrl := some "https://proxy.example.com/api/zep" }) := by
  intro h
  have h2 := congrArg CredentialService.Credentials.useProxy h
  rw [show (CredentialService.getCredentialsFromLocalStorage
      (CredentialService.saveCredentialsToLocalStorage "zep-key"
        "https://zep.example.com" true "https://proxy.example.com/api/zep"
        "2024-03-05T00:00:00Z" none)).useProxy = none from rfl] at h2
  exact Option.noConfusion h2

/-- C9 amended: a save followed by a read returns only `apiKey` (through the
`encrypt`/`decrypt` pair) and `baseUrl`; `useProxy` and `proxyUrl` are not
persisted and read back unset, whatever was saved and whatever was stored
before (the write is wholesale). -/
theorem credentials_partial_roundtrip
    (apiKey baseUrl : String) (useProxy : Bool) (proxyUrl now : String)
    (store : Option CredentialService.StoredCredentials)
    (hk : apiKey ≠ "") (hb : baseUrl ≠ "") :
    CredentialService.getCredentialsFromLocalStorage
        (CredentialService.saveCredentialsToLocalStorage apiKey baseUrl
          useProxy proxyUrl now store) =
      { apiKey := some (CredentialService.decrypt
          (CredentialService.encrypt apiKey))
        baseUrl := some baseUrl
        useProxy := none
        proxyUrl := none } := by
  unfold CredentialService.saveCredentialsToLocalStorage
    CredentialService.getCredentialsFromLocalStorage
  dsimp only
  rw [if_neg (encrypt_ne_empty apiKey hk), if_neg hb]

/-- Witness for `credentials_partial_roundtrip`, plus the concrete
`decrypt ∘ encrypt` round-trip on the saved key. -/
theorem credentials_partial_roundtrip_witness :
    CredentialService.getCredentialsFromLocalStorage
        (CredentialService.saveCredentialsToLocalStorage "zep-key"
          "https://zep.example.com" true "https://proxy.example.com/api/zep"
          "2024-03-05T00:00:00Z" none) =
      { apiKey := some (CredentialService.decrypt
          (CredentialService.encrypt "zep-key"))
        baseUrl := some "https://zep.example.com"
        useProxy := none
        proxyUrl := none } ∧
    CredentialService.decrypt (CredentialService.encrypt "zep-key") =
      "zep-key" :=
  ⟨credentials_partial_roundtrip "zep-key" "https://zep.example.com" true
      "https://proxy.example.com/api/zep" "2024-03-05T00:00:00Z" none
      (by decide) (by decide),
    by decide⟩
